import Mathlib

/-!
# Verification of the RAG_GAN retrieval-augmented QA service

Shallow embedding of the repository's RAG subsystem:
* `Frontend/services/http.ts` — `HttpClient.parseError` and `HttpClient.request`
  (token handling, error parsing, structured responses);
* `services/api/rag.ts` (src/unnamed/part_014) — `ragAPI.query` and the
  documented `/rag/status` response shape (src/unnamed/part_001);
* the backend RAG pipeline (chunker, retriever, validation, LLM retry), whose
  Python sources are not in the repository snapshot, modelled from the spec.

JavaScript runtime values that cross the boundary (parsed JSON bodies, values
returned by `parseError`) are modelled by the inductive type `Js`; JavaScript
truthiness is modelled by `jsTruthy`.
-/

namespace RagGan

/-- A JavaScript/JSON runtime value. Numbers are modelled as integers (the
fractional part plays no role in any behaviour verified here). -/
inductive Js where
  | null : Js
  | bool (b : Bool) : Js
  | num (n : Int) : Js
  | str (s : String) : Js
  | arr (xs : List Js) : Js
  | obj (fields : List (String × Js)) : Js
deriving Repr

/-- JavaScript truthiness of a value: `null`, `false`, `0` and `""` are falsy;
every array and object is truthy. -/
def jsTruthy : Js → Bool
  | .null => false
  | .bool b => b
  | .num n => n != 0
  | .str s => s != ""
  | .arr _ => true
  | .obj _ => true

/-- Property access `v.key` on a runtime value: defined only on objects,
`undefined` (here `none`) otherwise. Parsed JSON objects have unique keys, so
first-match lookup is exact. -/
def getField : Js → String → Option Js
  | .obj fields, key => (fields.find? (fun p => p.1 == key)).map (fun p => p.2)
  | _, _ => none

/-- `data?.key` with a truthiness guard: the field's value when it exists and
is truthy, `none` otherwise. Models the `if (data?.key)` tests in
`HttpClient.parseError` (`Frontend/services/http.ts`). -/
def truthyField (data : Option Js) (key : String) : Option Js :=
  match data.bind (fun v => getField v key) with
  | some v => if jsTruthy v then some v else none
  | none => none

/-- Escape of one character inside a JSON string literal (quote and
backslash; other characters are emitted unchanged). -/
def escapeJsonChar (c : Char) : String :=
  if c = '"' then "\\\"" else if c = '\\' then "\\\\" else String.singleton c

/-- Escape of a string for inclusion in JSON output. -/
def escapeJson (s : String) : String :=
  String.join (s.toList.map escapeJsonChar)

mutual

/-- Model of `JSON.stringify` on a runtime value. -/
def stringify : Js → String
  | .null => "null"
  | .bool true => "true"
  | .bool false => "false"
  | .num n => toString n
  | .str s => "\"" ++ escapeJson s ++ "\""
  | .arr xs => "[" ++ stringifyList xs ++ "]"
  | .obj fields => "\x7b" ++ stringifyFields fields ++ "\x7d"

/-- Comma-separated serialization of array elements. -/
def stringifyList : List Js → String
  | [] => ""
  | [x] => stringify x
  | x :: xs => stringify x ++ "," ++ stringifyList xs

/-- Comma-separated serialization of object fields. -/
def stringifyFields : List (String × Js) → String
  | [] => ""
  | [kv] => "\"" ++ escapeJson kv.1 ++ "\":" ++ stringify kv.2
  | kv :: fs => "\"" ++ escapeJson kv.1 ++ "\":" ++ stringify kv.2 ++ "," ++ stringifyFields fs

end

/-- The status-code fallback table of `HttpClient.parseError`
(`Frontend/services/http.ts`, `statusMessages`). -/
def statusMessages : List (Nat × String) :=
  [(400, "Bad request"), (401, "Unauthorized"), (403, "Forbidden"),
   (404, "Not found"), (409, "Conflict"), (422, "Validation error"),
   (500, "Server error"), (503, "Service unavailable")]

/-- Embedding of `HttpClient.parseError(data, status)`
(`Frontend/services/http.ts` lines 60–92).  `data` is the parsed response body
(`none` models both `null` and a missing body).  The JavaScript function
returns the raw field value for `data.error` / `data.message`, which need not
be a string at runtime, so the result type is `Js`. -/
def parseError (data : Option Js) (status : Nat) : Js :=
  match data with
  | some (.str s) => Js.str s
  | _ =>
    match truthyField data "detail" with
    | some (.str s) => Js.str s
    | some v => Js.str (stringify v)
    | none =>
      match truthyField data "error" with
      | some v => v
      | none =>
        match truthyField data "message" with
        | some v => v
        | none => Js.str ((statusMessages.lookup status).getD "An error occurred")

/-- Embedding of the `HttpResponse<T>` shape returned by `HttpClient.request`
(`Frontend/services/http.ts`).  `data` is the parsed JSON body, `error` the
value produced for the `error` field (a `Js` because `parseError` can return a
non-string at runtime). -/
structure HttpResponse where
  success : Bool
  data : Option Js
  error : Option Js
  status : Nat
deriving Repr

/-- The observable outcome of the `fetch` call inside `HttpClient.request`:
either the promise rejected (`thrown`, with the `Error`'s message when the
thrown value was an `Error`), or a response completed with an HTTP status and
a body (`none` when `response.json()` failed, matching `data = null`). -/
inductive TransportOutcome where
  | thrown (msg : Option String) : TransportOutcome
  | completed (status : Nat) (body : Option Js) : TransportOutcome
deriving Repr

/-- `Response.ok` of the fetch API: status in the inclusive range 200–299. -/
def responseOk (status : Nat) : Bool :=
  200 ≤ status && status ≤ 299

/-- Embedding of `HttpClient.request` (`Frontend/services/http.ts` lines
97–163) together with its effect on the stored `auth_token` (the SecureStore
entry, modelled as an `Option String` threaded through the call).

* a thrown fetch error yields `success = false`, `status = 0` and the error
  message (`'Network error'` when the thrown value was not an `Error`);
* a completed non-OK response yields `success = false`, the `parseError`
  message and the response status, and deletes the stored token when the
  status is 401;
* a completed OK response yields `success = true` with the parsed body.
The function is total: every branch returns a structured `HttpResponse`. -/
def httpRequest (o : TransportOutcome) (token : Option String) :
    HttpResponse × Option String :=
  match o with
  | .thrown msg =>
    (⟨false, none, some (Js.str (msg.getD "Network error")), 0⟩, token)
  | .completed status body =>
    if responseOk status then
      (⟨true, body, none, status⟩, token)
    else
      (⟨false, none, some (parseError body status), status⟩,
       if status == 401 then none else token)

/-- `opt.getD` truthiness: a present, truthy value. Models `resp.error` and
`resp.data` tests (`!resp.success || !resp.data`, `resp.error || ...`) in
`ragAPI.query` (src/unnamed/part_014). -/
def jsTruthyOpt : Option Js → Bool
  | none => false
  | some v => jsTruthy v

/-- Embedding of `ragAPI.query` (src/unnamed/part_014 lines 79–87): it makes
one `httpClient.post` call and either returns `resp.data` or THROWS
`new Error(resp.error || 'RAG query failed')`.  The thrown path is modelled by
`Except.error` carrying the value handed to the `Error` constructor. -/
def ragQuery (o : TransportOutcome) (token : Option String) : Except Js Js :=
  let resp := (httpRequest o token).1
  if resp.success && jsTruthyOpt resp.data then
    Except.ok (resp.data.getD Js.null)
  else
    Except.error (if jsTruthyOpt resp.error then resp.error.getD Js.null
                  else Js.str "RAG query failed")

/-- The successful `GET /rag/status` response documented in
src/unnamed/part_001 (RAG Service Integration Guide, lines 111–120): fields
`ready`, `collection`, `document_count`, `chroma_dir`, `model`.  The optional
field set of the `RAGStatus` interface in src/unnamed/part_014 matches. -/
def ragStatusResponse : List (String × Js) :=
  [("ready", Js.bool true),
   ("collection", Js.str "parenting_articles"),
   ("document_count", Js.num 8238),
   ("chroma_dir", Js.str "/path/to/chroma_db"),
   ("model", Js.str "tngtech/deepseek-r1t2-chimera:free")]

/-- Field names of the documented successful status response. -/
def ragStatusFields : List String :=
  ragStatusResponse.map (fun p => p.1)

/-!
## Spec-modelled backend pipeline

The backend RAG implementation (`Backend/rag_assets/rag_core.py`,
`embeddings.py`, `llm.py`, `vectorstore_build.py`, `app/services/rag.py`,
`app/routers/rag.py` per the architecture in src/unnamed/part_001) is not part
of the source snapshot; only its documentation and its frontend callers are.
The definitions below are modelled from the spec and marked as such.
-/

/-- Modelled from the spec: one chunking step of the Chunker (spec §4.1),
missing with `Backend/rag_assets/vectorstore_build.py`.  While more than
`size` characters remain, emit a `size`-character chunk and advance by
`step = size - overlap` characters, so consecutive chunks share exactly
`overlap` characters; the final chunk is whatever remains (it may be shorter
than `size`).  `fuel` bounds the recursion; `chunkText` supplies enough. -/
def chunkAux (size step : Nat) : Nat → List Char → List (List Char)
  | 0, t => [t]
  | fuel + 1, t =>
    if t.length ≤ size then [t]
    else t.take size :: chunkAux size step fuel (t.drop step)

/-- Modelled from the spec: the Chunker (spec §4.1) on normalized document
text, with `chunk_size` and `chunk_overlap` in characters. -/
def chunkText (size overlap : Nat) (t : List Char) : List (List Char) :=
  chunkAux size (size - overlap) t.length t

/-- Rejoining a chunk list with the overlap removed: the first chunk whole,
every later chunk with its leading `overlap` characters dropped (those are the
characters it shares with its predecessor). -/
def rejoinChunks (overlap : Nat) : List (List Char) → List Char
  | [] => []
  | c :: cs => c ++ (cs.map (List.drop overlap)).flatten

/-- Modelled from the spec: similarity score of two embedding vectors
(inner product; the concrete metric is irrelevant to the claims). -/
def dot (u v : List Int) : Int :=
  (List.zipWith (fun a b => a * b) u v).sum

/-- Modelled from the spec: the Vector Index `search` operation (spec §4.3),
missing with the backend.  Scores every stored `(chunk_id, vector)` entry
against the query vector, ranks by descending score (insertion sort is
stable, so ties keep ingestion order as §3 requires) and returns at most `k`
results. -/
def searchIndex (entries : List (String × List Int)) (q : List Int) (k : Nat) :
    List (String × Int) :=
  ((entries.map (fun e => (e.1, dot e.2 q))).insertionSort
    (fun a b => b.2 ≤ a.2)).take k

/-- Modelled from the spec: error taxonomy of the Query Service (spec §7). -/
inductive RagError where
  | validation (msg : String) : RagError
  | unavailable : RagError
deriving Repr, DecidableEq

/-- Modelled from the spec: the Retriever (spec §4.4), missing with
`Backend/rag_assets/rag_core.py`.  `embedOk` tells whether the embedding
provider is reachable (unreachability propagates as an error, never a
fabricated result); `floor` is the optional minimum-relevance floor. -/
def retrieve (entries : List (String × List Int)) (embedOk : Bool)
    (qvec : List Int) (k : Nat) (floor : Option Int) :
    Except RagError (List (String × Int)) :=
  if embedOk then
    let ranked := searchIndex entries qvec k
    Except.ok (match floor with
      | none => ranked
      | some f => ranked.filter (fun r => f ≤ r.2))
  else
    Except.error RagError.unavailable

/-- Question length bounds of the Query Service (spec §4.7; documented as
"5-500 chars" in src/unnamed/part_003). -/
def minChars : Nat := 5

/-- Upper question length bound. -/
def maxChars : Nat := 500

/-- `top_k` bounds (spec §6: "bounded 1–10"; src/unnamed/part_003: "1-10"). -/
def topKMin : Nat := 1

/-- Upper `top_k` bound. -/
def topKMax : Nat := 10

/-- External calls a query makes, in order, used to state that validation
failures happen before any embedding / retrieval / provider work. -/
inductive ServiceCall where
  | embed (text : String) : ServiceCall
  | search (k : Nat) : ServiceCall
  | generate : ServiceCall
deriving Repr, DecidableEq

/-- Modelled AnswerResult (spec §3): answer text, attributed chunks,
optional error detail, degraded marker. -/
structure AnswerResult where
  answer : String
  chunks : List (String × Int)
  error : Option String
  degraded : Bool
deriving Repr

/-- Modelled from the spec: the environment a query runs against — embedding
provider reachability, the populated index, the embedding assigned to the
question, the generation provider's reachability and output. -/
structure RagEnv where
  embedOk : Bool
  entries : List (String × List Int)
  queryVec : String → List Int
  genOk : Bool
  genAnswer : String

/-- Modelled from the spec: the Query Service `answer` operation (spec §4.7,
§5, §6), missing with `app/services/rag.py` / `app/routers/rag.py`.  Returns
the ordered list of external calls made alongside the outcome.  Validation is
pre-flight: an out-of-range question length or `top_k` is rejected with a
`ValidationError` before any external call; then the stage order is strict
embed → retrieve → generate, with a degraded (never thrown) result when the
generation provider fails. -/
def answerRun (env : RagEnv) (q : String) (k : Nat) :
    List ServiceCall × Except RagError AnswerResult :=
  if q.length < minChars ∨ maxChars < q.length then
    ([], Except.error (RagError.validation "question length out of range"))
  else if k < topKMin ∨ topKMax < k then
    ([], Except.error (RagError.validation "top_k out of range"))
  else if env.embedOk = false then
    ([ServiceCall.embed q], Except.error RagError.unavailable)
  else
    let res := searchIndex env.entries (env.queryVec q) k
    ([ServiceCall.embed q, ServiceCall.search k, ServiceCall.generate],
     if env.genOk then
       Except.ok ⟨env.genAnswer, res, none, false⟩
     else
       Except.ok ⟨"[degraded] generation provider unavailable", res,
                  some "generation provider unavailable", true⟩)

/-- Modelled from the spec: provider-error classes at the language-model
boundary (spec §4.6, §7). -/
inductive ProviderError where
  | timeout : ProviderError
  | serverError : ProviderError
  | validation : ProviderError
  | config : ProviderError
deriving Repr, DecidableEq

/-- Transient provider errors: timeout and 5xx-equivalent failures. -/
def transient : ProviderError → Bool
  | .timeout => true
  | .serverError => true
  | .validation => false
  | .config => false

/-- Modelled from the spec: the Answer Generator's provider call with its
retry policy (spec §4.6, §7), missing with `Backend/rag_assets/llm.py`.
`provider n` is the outcome of attempt `n`.  Returns the number of attempts
made and the final outcome: one retry after a transient failure, none after a
validation or config failure. -/
def generateWithRetry (provider : Nat → Except ProviderError String) :
    Nat × Except ProviderError String :=
  match provider 0 with
  | .ok a => (1, .ok a)
  | .error e => if transient e then (2, provider 1) else (1, .error e)

/-!
## Theorems
-/

/-- Dropping the first `ov` characters of every chunk and concatenating gives
the source text with its first `ov` characters dropped, for any fuel, whenever
`step + ov = size`. -/
theorem chunkAux_drop_flatten (size step ov : Nat) (hstep : step + ov = size) :
    ∀ (fuel : Nat) (t : List Char),
      ((chunkAux size step fuel t).map (List.drop ov)).flatten = t.drop ov := by
  intro fuel
  induction fuel with
  | zero => intro t; simp [chunkAux]
  | succ n ih =>
    intro t
    by_cases h : t.length ≤ size
    · simp [chunkAux, h]
    · simp only [chunkAux, if_neg h, List.map_cons, List.flatten_cons, ih]
      rw [List.drop_take, List.drop_drop, hstep]
      have hs : size - ov = step := by omega
      have hds : t.drop size = (t.drop ov).drop step := by
        rw [List.drop_drop]
        congr 1
        omega
      rw [hs, hds]
      exact List.take_append_drop step (t.drop ov)

/-- C5 (confirmed, spec-modelled): for every document text and every valid
chunking configuration (`chunk_overlap < chunk_size`), rejoining the chunk
list produced by the Chunker with the `chunk_overlap`-character overlap of
each later chunk removed reconstructs the source text exactly. -/
theorem chunk_roundtrip (size overlap : Nat) (h : overlap < size)
    (t : List Char) :
    rejoinChunks overlap (chunkText size overlap t) = t := by
  have hstep : (size - overlap) + overlap = size := Nat.sub_add_cancel h.le
  unfold chunkText
  cases hn : t.length with
  | zero => simp [chunkAux, rejoinChunks]
  | succ n =>
    by_cases hle : t.length ≤ size
    · simp [chunkAux, hle, rejoinChunks]
    · have hflat := chunkAux_drop_flatten size (size - overlap) overlap hstep n
        (t.drop (size - overlap))
      simp only [chunkAux, if_neg hle, rejoinChunks, List.map_cons,
        List.flatten_cons]
      rw [hflat, List.drop_drop, hstep]
      exact List.take_append_drop size t

/-- C5 witness: round-trip at `chunk_size = 5`, `chunk_overlap = 2` on a
concrete 12-character text. -/
theorem chunk_roundtrip_witness :
    2 < 5 ∧
      rejoinChunks 2 (chunkText 5 2 ("hello world!".toList)) =
        "hello world!".toList :=
  ⟨by decide, chunk_roundtrip 5 2 (by decide) ("hello world!".toList)⟩

/-- C6 (confirmed, spec-modelled): every successful retrieval returns at most
`top_k` results, with similarity scores non-increasing by position (the score
at any later position is at most the score at any earlier one, so in
particular each adjacent pair is non-increasing). -/
theorem retrieve_length_le_sorted (entries : List (String × List Int))
    (embedOk : Bool) (qvec : List Int) (k : Nat) (floor : Option Int)
    (res : List (String × Int))
    (h : retrieve entries embedOk qvec k floor = Except.ok res) :
    res.length ≤ k ∧
      ∀ i j (hi : i < res.length) (hj : j < res.length), i < j →
        (res.get ⟨j, hj⟩).2 ≤ (res.get ⟨i, hi⟩).2 := by
  have hpair : res.Pairwise (fun a b : String × Int => b.2 ≤ a.2) ∧
      res.length ≤ k := by
    cases embedOk with
    | false => simp [retrieve] at h
    | true =>
      haveI : IsTotal (String × Int) (fun a b : String × Int => b.2 ≤ a.2) :=
        ⟨fun a b => le_total b.2 a.2⟩
      haveI : IsTrans (String × Int) (fun a b : String × Int => b.2 ≤ a.2) :=
        ⟨fun _ _ _ hab hbc => le_trans hbc hab⟩
      have hsorted : (searchIndex entries qvec k).Pairwise
          (fun a b : String × Int => b.2 ≤ a.2) := by
        have hs := List.sorted_insertionSort
          (fun a b : String × Int => b.2 ≤ a.2)
          (entries.map (fun e => (e.1, dot e.2 qvec)))
        exact List.Pairwise.sublist (List.take_sublist k _) hs
      have hlen : (searchIndex entries qvec k).length ≤ k := by
        unfold searchIndex
        exact List.length_take_le k _
      simp only [retrieve, if_pos rfl] at h
      cases floor with
      | none =>
        simp only at h
        injection h with h
        subst h
        exact ⟨hsorted, hlen⟩
      | some f =>
        simp only at h
        injection h with h
        subst h
        refine ⟨List.Pairwise.sublist (List.filter_sublist _) hsorted, ?_⟩
        exact le_trans (List.length_filter_le _ _) hlen
  refine ⟨hpair.2, ?_⟩
  intro i j hi hj hij
  exact List.pairwise_iff_get.mp hpair.1 ⟨i, hi⟩ ⟨j, hj⟩ hij

/-- C6 witness: a concrete retrieval with three indexed chunks and `top_k = 2`
returns two results in descending score order. -/
theorem retrieve_length_le_sorted_witness :
    retrieve [("a", [1]), ("b", [2]), ("c", [3])] true [1] 2 none =
        Except.ok [("c", 3), ("b", 2)] ∧
      (([("c", 3), ("b", 2)] : List (String × Int)).length ≤ 2 ∧
        ∀ i j (hi : i < ([("c", 3), ("b", 2)] : List (String × Int)).length)
          (hj : j < ([("c", 3), ("b", 2)] : List (String × Int)).length),
          i < j →
            (([("c", 3), ("b", 2)] : List (String × Int)).get ⟨j, hj⟩).2 ≤
              (([("c", 3), ("b", 2)] : List (String × Int)).get ⟨i, hi⟩).2) :=
  ⟨rfl, retrieve_length_le_sorted [("a", [1]), ("b", [2]), ("c", [3])] true
    [1] 2 none [("c", 3), ("b", 2)] rfl⟩

/-- C2 (confirmed, spec-modelled): a question whose length lies outside
`[min_chars, max_chars] = [5, 500]` is rejected with a `ValidationError`
before any external call (the call list is empty); a question of length
exactly 5 or exactly 500 (with an in-bounds `top_k`) is accepted — the
embedding call is the first piece of work performed. -/
theorem answer_question_length_validated (env : RagEnv) (q : String)
    (k : Nat) :
    ((q.length < minChars ∨ maxChars < q.length) →
        answerRun env q k =
          ([], Except.error (RagError.validation
            "question length out of range"))) ∧
      ((q.length = minChars ∨ q.length = maxChars) →
        topKMin ≤ k → k ≤ topKMax →
          (answerRun env q k).1.head? = some (ServiceCall.embed q)) := by
  constructor
  · intro h
    simp [answerRun, h]
  · intro hq hk1 hk2
    have hlen : ¬(q.length < minChars ∨ maxChars < q.length) := by
      rcases hq with h | h <;> simp [h, minChars, maxChars]
    have hkb : ¬(k < topKMin ∨ topKMax < k) := by omega
    simp only [answerRun, if_neg hlen, if_neg hkb]
    cases henv : env.embedOk <;> simp [henv]

/-- C2 witness: a 4-character question is rejected pre-flight with a
validation error; a 5-character question proceeds straight to the embedding
call. -/
theorem answer_question_length_validated_witness :
    (("abcd".length < minChars ∨ maxChars < "abcd".length) ∧
        answerRun ⟨true, [], fun _ => [], true, "ans"⟩ "abcd" 3 =
          ([], Except.error (RagError.validation
            "question length out of range"))) ∧
      (("abcde".length = minChars ∨ "abcde".length = maxChars) ∧
        (answerRun ⟨true, [], fun _ => [], true, "ans"⟩ "abcde" 3).1.head? =
          some (ServiceCall.embed "abcde")) :=
  ⟨⟨Or.inl (by decide),
    (answer_question_length_validated ⟨true, [], fun _ => [], true, "ans"⟩
      "abcd" 3).1 (Or.inl (by decide))⟩,
   ⟨Or.inl (by decide),
    (answer_question_length_validated ⟨true, [], fun _ => [], true, "ans"⟩
      "abcde" 3).2 (Or.inl (by decide)) (by decide) (by decide)⟩⟩

/-- C3 (confirmed, spec-modelled): a query whose `top_k` lies outside
`[1, 10]` is rejected with a `ValidationError` and no external call — in
particular no embedding call — is made. -/
theorem answer_top_k_validated (env : RagEnv) (q : String) (k : Nat)
    (hk : k < topKMin ∨ topKMax < k) :
    (answerRun env q k).1 = [] ∧
      ∃ m, (answerRun env q k).2 = Except.error (RagError.validation m) := by
  by_cases hq : q.length < minChars ∨ maxChars < q.length
  · simp [answerRun, hq]
  · simp [answerRun, hq, hk]

/-- C3 witness: `top_k = 0` with an in-range question is rejected with a
validation error and an empty call list. -/
theorem answer_top_k_validated_witness :
    (0 < topKMin ∨ topKMax < 0) ∧
      ((answerRun ⟨true, [], fun _ => [], true, "ans"⟩ "abcde" 0).1 = [] ∧
        ∃ m, (answerRun ⟨true, [], fun _ => [], true, "ans"⟩ "abcde" 0).2 =
          Except.error (RagError.validation m)) :=
  ⟨Or.inl (by decide),
   answer_top_k_validated ⟨true, [], fun _ => [], true, "ans"⟩ "abcde" 0
     (Or.inl (by decide))⟩

/-- C4 (confirmed, spec-modelled): a provider call that fails with a
transient (timeout / 5xx-equivalent) error is retried exactly once — two
attempts in total, the outcome being that of the second attempt — while a
validation-class or config provider error is never retried: one attempt, the
error reported as-is. -/
theorem generate_retry_policy :
    (∀ (provider : Nat → Except ProviderError String) (e : ProviderError),
        provider 0 = Except.error e → transient e = true →
          generateWithRetry provider = (2, provider 1)) ∧
      (∀ (provider : Nat → Except ProviderError String) (e : ProviderError),
        provider 0 = Except.error e → transient e = false →
          generateWithRetry provider = (1, Except.error e)) := by
  constructor
  · intro provider e h0 ht
    simp [generateWithRetry, h0, ht]
  · intro provider e h0 ht
    simp [generateWithRetry, h0, ht]

/-- C4 witness: a provider that times out on attempt 0 and succeeds on
attempt 1 is called twice; a provider failing with a validation error is
called once and not retried. -/
theorem generate_retry_policy_witness :
    ((fun n : Nat => if n = 0 then Except.error ProviderError.timeout
        else Except.ok "answer") 0 =
          Except.error ProviderError.timeout ∧
      transient ProviderError.timeout = true ∧
      generateWithRetry (fun n : Nat =>
          if n = 0 then Except.error ProviderError.timeout
          else Except.ok "answer") =
        (2, (fun n : Nat => if n = 0 then Except.error ProviderError.timeout
          else Except.ok "answer") 1)) ∧
      ((fun _ : Nat => (Except.error ProviderError.validation :
            Except ProviderError String)) 0 =
          Except.error ProviderError.validation ∧
        transient ProviderError.validation = false ∧
        generateWithRetry (fun _ : Nat =>
            (Except.error ProviderError.validation :
              Except ProviderError String)) =
          (1, Except.error ProviderError.validation)) :=
  ⟨⟨rfl, rfl, generate_retry_policy.1 _ ProviderError.timeout rfl rfl⟩,
   ⟨rfl, rfl, generate_retry_policy.2 _ ProviderError.validation rfl rfl⟩⟩

/-- C7 counterexample: the documented successful `/rag/status` response has
no field named `index_location`; the index location is carried by a field
named `chroma_dir` instead. -/
theorem rag_status_missing_index_location :
    "index_location" ∉ ragStatusFields := by
  decide

/-- C7 (corrected): every successful status call returns a record containing
the fields `ready`, `document_count`, `model` and `chroma_dir` (the field
carrying the index location is named `chroma_dir`, not `index_location`). -/
theorem rag_status_fields_present :
    "ready" ∈ ragStatusFields ∧ "document_count" ∈ ragStatusFields ∧
      "model" ∈ ragStatusFields ∧ "chroma_dir" ∈ ragStatusFields := by
  decide

/-- C8 (confirmed): `HttpClient.request` always returns a structured
`HttpResponse` and never lets an exception escape: a thrown network/fetch
error yields `success = false`, `status = 0` and the thrown error's message
(`'Network error'` when the thrown value was not an `Error`); a completed
non-OK response yields `success = false` with the `parseError` message and
that status; a completed OK response yields `success = true` with the parsed
body as `data`.  Totality is the totality of `httpRequest` itself. -/
theorem http_request_structured_total :
    (∀ (msg : Option String) (token : Option String),
        (httpRequest (TransportOutcome.thrown msg) token).1 =
          ⟨false, none, some (Js.str (msg.getD "Network error")), 0⟩) ∧
      (∀ (status : Nat) (body : Option Js) (token : Option String),
        responseOk status = false →
          (httpRequest (TransportOutcome.completed status body) token).1 =
            ⟨false, none, some (parseError body status), status⟩) ∧
      (∀ (status : Nat) (body : Option Js) (token : Option String),
        responseOk status = true →
          (httpRequest (TransportOutcome.completed status body) token).1 =
            ⟨true, body, none, status⟩) := by
  refine ⟨fun msg token => rfl, ?_, ?_⟩
  · intro status body token h
    simp [httpRequest, h]
  · intro status body token h
    simp [httpRequest, h]

/-- C8 witness: the three branches at concrete inputs — a non-`Error` fetch
rejection, a completed 404 and a completed 200. -/
theorem http_request_structured_total_witness :
    (httpRequest (TransportOutcome.thrown none) (some "tok")).1 =
        ⟨false, none, some (Js.str ((none : Option String).getD
          "Network error")), 0⟩ ∧
      (responseOk 404 = false ∧
        (httpRequest (TransportOutcome.completed 404 none) (some "tok")).1 =
          ⟨false, none, some (parseError none 404), 404⟩) ∧
      (responseOk 200 = true ∧
        (httpRequest (TransportOutcome.completed 200
            (some (Js.str "body"))) (some "tok")).1 =
          ⟨true, some (Js.str "body"), none, 200⟩) :=
  ⟨http_request_structured_total.1 none (some "tok"),
   ⟨rfl, http_request_structured_total.2.1 404 none (some "tok") rfl⟩,
   ⟨rfl, http_request_structured_total.2.2 200 (some (Js.str "body"))
      (some "tok") rfl⟩⟩

/-- C9 (confirmed): `HttpClient.request` deletes the stored `auth_token`
exactly when a completed response has status 401; every other completed
status, and a thrown fetch error, leave the stored token unchanged. -/
theorem http_request_token_delete_iff_401 :
    (∀ (body : Option Js) (token : Option String),
        (httpRequest (TransportOutcome.completed 401 body) token).2 = none) ∧
      (∀ (status : Nat) (body : Option Js) (token : Option String),
        status ≠ 401 →
          (httpRequest (TransportOutcome.completed status body) token).2 =
            token) ∧
      (∀ (msg : Option String) (token : Option String),
        (httpRequest (TransportOutcome.thrown msg) token).2 = token) := by
  refine ⟨fun body token => rfl, ?_, fun msg token => rfl⟩
  intro status body token h
  by_cases hok : responseOk status
  · simp [httpRequest, hok]
  · simp [httpRequest, hok, h]

/-- C9 witness: a completed 401 clears the token; a completed 404 and a
thrown error leave it in place. -/
theorem http_request_token_delete_iff_401_witness :
    (httpRequest (TransportOutcome.completed 401 none) (some "tok")).2 =
        none ∧
      ((404 : Nat) ≠ 401 ∧
        (httpRequest (TransportOutcome.completed 404 none)
          (some "tok")).2 = some "tok") ∧
      (httpRequest (TransportOutcome.thrown none) (some "tok")).2 =
        some "tok" :=
  ⟨http_request_token_delete_iff_401.1 none (some "tok"),
   ⟨by decide, http_request_token_delete_iff_401.2.1 404 none (some "tok")
      (by decide)⟩,
   http_request_token_delete_iff_401.2.2 none (some "tok")⟩

/-- C1 counterexample: on a failed network call (the fetch promise rejected
with a non-`Error` value), `ragAPI.query` THROWS
`new Error('Network error')` — the result is the thrown path, not a returned
structured response object. -/
theorem rag_query_throws_on_network_error :
    ragQuery (TransportOutcome.thrown none) none =
      Except.error (Js.str "Network error") := rfl

/-- C1 (corrected): whenever the underlying `HttpClient.request` call fails
(`success = false`) — the HTTP client itself does return a structured
response and never throws — `ragAPI.query` converts that failure into a
thrown `Error`, so its caller receives an exception, not a degraded
`AnswerResult`. -/
theorem rag_query_error_on_failed_call (o : TransportOutcome)
    (token : Option String)
    (h : (httpRequest o token).1.success = false) :
    ∃ e, ragQuery o token = Except.error e := by
  refine ⟨if jsTruthyOpt (httpRequest o token).1.error then
    (httpRequest o token).1.error.getD Js.null
    else Js.str "RAG query failed", ?_⟩
  simp [ragQuery, h]

/-- C1 witness: the failed-call hypothesis and the thrown result at a
concrete rejected fetch. -/
theorem rag_query_error_on_failed_call_witness :
    (httpRequest (TransportOutcome.thrown (some "timeout")) none).1.success =
        false ∧
      ∃ e, ragQuery (TransportOutcome.thrown (some "timeout")) none =
        Except.error e :=
  ⟨rfl, rag_query_error_on_failed_call (TransportOutcome.thrown
    (some "timeout")) none rfl⟩

/-- A field whose value is JavaScript-falsy (or absent) fails the
`if (data?.key)` guard. -/
theorem truthyField_none_of_falsy (fs : List (String × Js)) (key : String)
    (h : jsTruthyOpt (getField (Js.obj fs) key) = false) :
    truthyField (some (Js.obj fs)) key = none := by
  cases hg : getField (Js.obj fs) key with
  | none => simp [truthyField, hg]
  | some v =>
    have hv : jsTruthy v = false := by simpa [jsTruthyOpt, hg] using h
    simp [truthyField, hg, hv]

/-- A present truthy field passes the `if (data?.key)` guard. -/
theorem truthyField_some_of_truthy (fs : List (String × Js)) (key : String)
    (v : Js) (hg : getField (Js.obj fs) key = some v)
    (hv : jsTruthy v = true) :
    truthyField (some (Js.obj fs)) key = some v := by
  simp [truthyField, hg, hv]

/-- C10 counterexample: at `data = \x7b detail: "" \x7d`, `status = 422` the
claimed precedence returns `data.detail` (the string `""`), but
`parseError` skips the falsy `detail` field and returns the status-code
message `"Validation error"`, which differs from `""`. -/
theorem parse_error_empty_detail_skipped :
    parseError (some (Js.obj [("detail", Js.str "")])) 422 =
        Js.str "Validation error" ∧
      ("Validation error" : String) ≠ "" :=
  ⟨rfl, by decide⟩

/-- C10 (corrected): `parseError` is a pure total function on (data, status)
following the source's precedence, in which each `data` field is used only
when it is truthy in the JavaScript sense (an empty-string, `0`, `false` or
`null` field falls through to the later cases):
1. `data` itself when `data` is a string;
2. else a truthy `data.detail` — returned directly when a string,
   JSON-stringified otherwise;
3. else a truthy `data.error`, returned raw;
4. else a truthy `data.message`, returned raw;
5. else the fixed message for the status code (e.g. 422 ↦
   `'Validation error'`), and `'An error occurred'` for a status with no
   table entry. -/
theorem parse_error_precedence :
    (∀ (s : String) (status : Nat),
        parseError (some (Js.str s)) status = Js.str s) ∧
      (∀ (fs : List (String × Js)) (status : Nat) (s : String),
        getField (Js.obj fs) "detail" = some (Js.str s) → s ≠ "" →
          parseError (some (Js.obj fs)) status = Js.str s) ∧
      (∀ (fs : List (String × Js)) (status : Nat) (v : Js),
        getField (Js.obj fs) "detail" = some v → jsTruthy v = true →
          (∀ s, v ≠ Js.str s) →
          parseError (some (Js.obj fs)) status = Js.str (stringify v)) ∧
      (∀ (fs : List (String × Js)) (status : Nat) (v : Js),
        jsTruthyOpt (getField (Js.obj fs) "detail") = false →
          getField (Js.obj fs) "error" = some v → jsTruthy v = true →
          parseError (some (Js.obj fs)) status = v) ∧
      (∀ (fs : List (String × Js)) (status : Nat) (v : Js),
        jsTruthyOpt (getField (Js.obj fs) "detail") = false →
          jsTruthyOpt (getField (Js.obj fs) "error") = false →
          getField (Js.obj fs) "message" = some v → jsTruthy v = true →
          parseError (some (Js.obj fs)) status = v) ∧
      (∀ (fs : List (String × Js)) (status : Nat),
        jsTruthyOpt (getField (Js.obj fs) "detail") = false →
          jsTruthyOpt (getField (Js.obj fs) "error") = false →
          jsTruthyOpt (getField (Js.obj fs) "message") = false →
          parseError (some (Js.obj fs)) status =
            Js.str ((statusMessages.lookup status).getD
              "An error occurred")) ∧
      (∀ status : Nat,
        parseError none status =
          Js.str ((statusMessages.lookup status).getD
            "An error occurred")) := by
  refine ⟨fun s status => rfl, ?_, ?_, ?_, ?_, ?_, fun status => rfl⟩
  · intro fs status s hget hne
    have htf : truthyField (some (Js.obj fs)) "detail" = some (Js.str s) :=
      truthyField_some_of_truthy fs "detail" (Js.str s) hget
        (by simp [jsTruthy, hne])
    simp only [parseError]
    rw [htf]
  · intro fs status v hget hv hns
    have htf : truthyField (some (Js.obj fs)) "detail" = some v :=
      truthyField_some_of_truthy fs "detail" v hget hv
    simp only [parseError]
    rw [htf]
    cases v with
    | str s => exact absurd rfl (hns s)
    | null => rfl
    | bool b => rfl
    | num n => rfl
    | arr xs => rfl
    | obj gs => rfl
  · intro fs status v hd hget hv
    have htd : truthyField (some (Js.obj fs)) "detail" = none :=
      truthyField_none_of_falsy fs "detail" hd
    have hte : truthyField (some (Js.obj fs)) "error" = some v :=
      truthyField_some_of_truthy fs "error" v hget hv
    simp only [parseError]
    rw [htd, hte]
  · intro fs status v hd he hget hv
    have htd : truthyField (some (Js.obj fs)) "detail" = none :=
      truthyField_none_of_falsy fs "detail" hd
    have hte : truthyField (some (Js.obj fs)) "error" = none :=
      truthyField_none_of_falsy fs "error" he
    have htm : truthyField (some (Js.obj fs)) "message" = some v :=
      truthyField_some_of_truthy fs "message" v hget hv
    simp only [parseError]
    rw [htd, hte, htm]
  · intro fs status hd he hm
    have htd : truthyField (some (Js.obj fs)) "detail" = none :=
      truthyField_none_of_falsy fs "detail" hd
    have hte : truthyField (some (Js.obj fs)) "error" = none :=
      truthyField_none_of_falsy fs "error" he
    have htm : truthyField (some (Js.obj fs)) "message" = none :=
      truthyField_none_of_falsy fs "message" hm
    simp only [parseError]
    rw [htd, hte, htm]

/-- C10 witness: one concrete instance of every precedence step — string
body, string detail, non-string detail (stringified), raw `error` field, raw
`message` field, status-table fallback at 422 and default fallback. -/
theorem parse_error_precedence_witness :
    parseError (some (Js.str "boom")) 500 = Js.str "boom" ∧
      (getField (Js.obj [("detail", Js.str "bad input")]) "detail" =
          some (Js.str "bad input") ∧
        parseError (some (Js.obj [("detail", Js.str "bad input")])) 400 =
          Js.str "bad input") ∧
      (getField (Js.obj [("detail", Js.arr [])]) "detail" =
          some (Js.arr []) ∧
        parseError (some (Js.obj [("detail", Js.arr [])])) 400 =
          Js.str (stringify (Js.arr []))) ∧
      (getField (Js.obj [("error", Js.num 7)]) "error" = some (Js.num 7) ∧
        parseError (some (Js.obj [("error", Js.num 7)])) 400 = Js.num 7) ∧
      (getField (Js.obj [("message", Js.str "oops")]) "message" =
          some (Js.str "oops") ∧
        parseError (some (Js.obj [("message", Js.str "oops")])) 400 =
          Js.str "oops") ∧
      parseError (some (Js.obj [])) 422 =
        Js.str ((statusMessages.lookup 422).getD "An error occurred") ∧
      parseError none 9 =
        Js.str ((statusMessages.lookup 9).getD "An error occurred") :=
  ⟨parse_error_precedence.1 "boom" 500,
   ⟨rfl, parse_error_precedence.2.1 [("detail", Js.str "bad input")] 400
      "bad input" rfl (by decide)⟩,
   ⟨rfl, parse_error_precedence.2.2.1 [("detail", Js.arr [])] 400
      (Js.arr []) rfl rfl (fun s h => Js.noConfusion h)⟩,
   ⟨rfl, parse_error_precedence.2.2.2.1 [("error", Js.num 7)] 400
      (Js.num 7) rfl rfl rfl⟩,
   ⟨rfl, parse_error_precedence.2.2.2.2.1 [("message", Js.str "oops")] 400
      (Js.str "oops") rfl rfl rfl (by decide)⟩,
   parse_error_precedence.2.2.2.2.2.1 [] 422 rfl rfl rfl,
   parse_error_precedence.2.2.2.2.2.2 9⟩

end RagGan
